import Mathlib

/-!
Verification of the ClaudeDot filesystem-IPC protocol.

The repository coordinates short-lived hook processes with a long-running
tray application through a shared directory tree
(`~/.claude-helper/sessions/<sid>/info.json`, `.../pending/<rid>.json`,
`~/.claude-helper/responses/<rid>.json`).  This development shallowly embeds
the state-manipulating parts of the Python source:

* `hooks/permission_request.py` — blocking permission handshake,
* `hooks/elicitation_request.py` — blocking elicitation handshake,
* `hooks/tool_activity.py`      — PostToolUse status reset,
* `hooks/session_start.py`      — session registration,
* `claude_helper.py`            — responder poll loop, GC sweeps, discovery,
  and incremental elicitation-answer writing.

Files are modelled explicitly: a JSON file is either missing, present but
unreadable (JSONDecodeError / IOError), or readable with parsed content.
Dictionary fields read via `dict.get` with no created default are `Option`s.
Polling real time is modelled by discrete ticks (one tick = one
`POLL_INTERVAL` sleep); the 300 s timeout corresponds to the poll fuel
running out.  The responder's environment (which response file exists at
each tick, which pids are alive, the process table) is passed in as
explicit parameters.
-/

namespace ClaudeDot

/-- A session record, the parsed content of `sessions/<sid>/info.json`.
Fields the Python code reads with `dict.get(...)` (no guaranteed key) are
`Option`s; `None`-valued JSON fields are `none`. -/
structure SessionInfo where
  session_id : Option String
  cwd : Option String
  project_name : Option String
  parent_pid : Option Nat
  client : Option String
  status : Option String
  waiting_for : Option String
  last_updated : Option Nat
deriving Repr, DecidableEq

/-- State of an `info.json` file: absent, present but failing
`json.load` (malformed / IOError), or readable. -/
inductive InfoFile
  | missing
  | malformed
  | valid (i : SessionInfo)
deriving Repr, DecidableEq

/-- State of a response file in `responses/<rid>.json` as seen by a
polling producer: absent (`os.path.isfile` false), present but failing
`json.load`, or readable with parsed content `α`. -/
inductive RespFile (α : Type)
  | absent
  | unreadable
  | valid (a : α)
deriving Repr, DecidableEq

/-- Parsed content of a permission Response: `response.get("decision", ...)`. -/
structure PermResponse where
  decision : Option String
deriving Repr, DecidableEq

/-- Parsed content of an elicitation Response:
`response.get("answers", {})`, a JSON object from question-index strings
to selected option labels, modelled as an association list in key order. -/
structure ElicResponse where
  answers : List (String × String)
deriving Repr, DecidableEq

/-- `_SAFE_ID = re.compile(r'^[a-zA-Z0-9_-]{1,128}$')` from
`hooks/permission_request.py` together with `_SAFE_ID.match s ≠ None`.
`Char.isAlphanum` is the ASCII `[a-zA-Z0-9]` class; the character test
runs over the string's character list. -/
def SAFE_ID (s : String) : Bool :=
  1 ≤ s.length && s.length ≤ 128 &&
    s.data.all (fun c => c.isAlphanum || c == '-' || c == '_')

/-- `STATE_DIR = os.path.expanduser("~/.claude-helper")`; the expansion of
`~` is environment-dependent and kept symbolic. -/
def STATE_DIR : String := "~/.claude-helper"

/-- `os.path.join(STATE_DIR, "sessions", session_id)`. -/
def sessionDirPath (session_id : String) : String :=
  STATE_DIR ++ "/sessions/" ++ session_id

/-- `os.path.basename` with POSIX separators: the part after the last `/`
(computed characterwise: the accumulator restarts at every separator). -/
def basename (p : String) : String :=
  (p.data.foldl (fun acc c => if c = '/' then [] else acc ++ [c]) []).asString

namespace PermissionRequest

/-- `_update_session_status` from `hooks/permission_request.py`: no-op if
`info.json` is missing or unreadable, otherwise rewrites it with the new
status, `waiting_for = None`, and `last_updated = int(time.time())`. -/
def update_session_status (info : InfoFile) (status : String) (now : Nat) :
    InfoFile :=
  match info with
  | .missing => .missing
  | .malformed => .malformed
  | .valid i =>
      .valid { i with status := some status, waiting_for := none,
                      last_updated := some now }

/-- The `decision_map = {"allow": "allow", "always_allow": "allow",
"deny": "deny"}` lookup with default `"deny"`. -/
def decision_map (raw : String) : String :=
  if raw = "allow" then "allow"
  else if raw = "always_allow" then "allow"
  else if raw = "deny" then "deny"
  else "deny"

/-- The decision object printed on stdout:
`{"behavior": ..., "message"?: ...}` (inside `hookSpecificOutput`). -/
structure Decision where
  behavior : String
  message : Option String
deriving Repr, DecidableEq

/-- Lines 134–143 of `hooks/permission_request.py`: normalize the raw
Response decision (`response.get("decision", "deny")`) into the printed
decision object. -/
def normalize_decision (r : PermResponse) : Decision :=
  let behavior := decision_map (r.decision.getD "deny")
  { behavior := behavior,
    message := if behavior = "deny"
               then some "Denied via Claude Helper system tray" else none }

/-- Observable outcome of `_run_terminal_mode`: whether the pending and
response files remain on disk, the final `info.json`, the printed decision
(if any), and the process exit code. -/
structure Result where
  pendingExists : Bool
  responseExists : Bool
  info : InfoFile
  output : Option Decision
  exitCode : Nat
deriving Repr, DecidableEq

/-- The poll loop of `_run_terminal_mode` (lines 115–164).  `env k` is the
state of `responses/<rid>.json` at poll tick `k`; `fuel` is the number of
remaining ticks before `time.time() - start_time < TIMEOUT` fails.  On a
readable response: `_cleanup` both files (the `finally` re-runs `_cleanup`
idempotently while `SystemExit(0)` propagates), restore status to
`"working"`, print the normalized decision, exit 0.  An unreadable
response is retried next tick.  On fuel exhaustion: `_cleanup` both files
in the `finally` block, leave the session status untouched (the source
comments "Keep status as 'permission'"), exit 1. -/
def poll (env : Nat → RespFile PermResponse) (now : Nat) :
    InfoFile → Nat → Nat → Result
  | info, _, 0 =>
      { pendingExists := false, responseExists := false, info := info,
        output := none, exitCode := 1 }
  | info, tick, fuel + 1 =>
      match env tick with
      | .valid r =>
          { pendingExists := false, responseExists := false,
            info := update_session_status info "working" now,
            output := some (normalize_decision r), exitCode := 0 }
      | _ => poll env now info (tick + 1) fuel

/-- `_run_terminal_mode` (lines 83–164): write the pending request, set the
session status to `"permission"`, then poll.  `fuel` is the tick budget of
the 5-minute timeout (600 ticks of `POLL_INTERVAL = 0.5` in the source). -/
def run_terminal_mode (env : Nat → RespFile PermResponse) (info : InfoFile)
    (fuel now : Nat) : Result :=
  poll env now (update_session_status info "permission" now) 0 fuel

/-- `_handle_signal` (lines 87–91): `_cleanup(pending_file, response_file)`
then `sys.exit(1)`; the session status is deliberately left untouched
("Keep status as 'permission'"). -/
def handle_signal (info : InfoFile) : Result :=
  { pendingExists := false, responseExists := false, info := info,
    output := none, exitCode := 1 }

end PermissionRequest

namespace ElicitationRequest

/-- One entry of `_build_question_data` from `hooks/elicitation_request.py`. -/
structure Question where
  index : Nat
  question : String
  header : String
  options : List String
deriving Repr, DecidableEq

/-- `_update_session_status` from `hooks/elicitation_request.py` (takes an
explicit `waiting_for`, unlike the permission hook's). -/
def update_session_status (info : InfoFile) (status : String)
    (waiting : Option String) (now : Nat) : InfoFile :=
  match info with
  | .missing => .missing
  | .malformed => .malformed
  | .valid i =>
      .valid { i with status := some status, waiting_for := waiting,
                      last_updated := some now }

/-- One line of the `additionalContext` build (lines 223–229):
`idx = int(idx_str)` — `none` models the uncaught `ValueError` on a
non-numeric key (Python `int` on a plain digit string is `String.toNat?`).
In range: `- {question} -> {val}`, else `- Question {idx}: {val}`. -/
def answer_line (qd : List Question) (key val : String) : Option String :=
  match key.toNat? with
  | none => none
  | some idx =>
      if h : idx < qd.length then
        some ("- " ++ (qd.get ⟨idx, h⟩).question ++ " -> " ++ val)
      else
        some ("- Question " ++ toString idx ++ ": " ++ val)

/-- All context lines; `none` when any key raises `ValueError`. -/
def build_lines (qd : List Question) (answers : List (String × String)) :
    Option (List String) :=
  answers.mapM (fun p => answer_line qd p.1 p.2)

/-- Observable outcome of `_run_menubar_mode`. -/
structure Result where
  pendingExists : Bool
  responseExists : Bool
  info : InfoFile
  output : Option (List String)
  exitCode : Nat
deriving Repr, DecidableEq

/-- The poll loop of `_run_menubar_mode` (lines 208–251).  On a readable
response: `_cleanup` both files, set status to `"working"`, build the
context lines (an uncaught `ValueError` there still exits nonzero after
cleanup), print and exit 0.  On fuel exhaustion: `_cleanup` both files,
leave status untouched ("Keep status as 'question'"), exit 1. -/
def poll (env : Nat → RespFile ElicResponse) (qd : List Question)
    (now : Nat) : InfoFile → Nat → Nat → Result
  | info, _, 0 =>
      { pendingExists := false, responseExists := false, info := info,
        output := none, exitCode := 1 }
  | info, tick, fuel + 1 =>
      match env tick with
      | .valid r =>
          let info' := update_session_status info "working" none now
          match build_lines qd r.answers with
          | some lines =>
              { pendingExists := false, responseExists := false,
                info := info', output := some lines, exitCode := 0 }
          | none =>
              { pendingExists := false, responseExists := false,
                info := info', output := none, exitCode := 1 }
      | _ => poll env qd now info (tick + 1) fuel

/-- `_run_menubar_mode` (lines 172–251): write the pending request, set the
session status to `"question"` with `waiting_for = "elicitation"`, then
poll. -/
def run_menubar_mode (env : Nat → RespFile ElicResponse) (qd : List Question)
    (info : InfoFile) (fuel now : Nat) : Result :=
  poll env qd now (update_session_status info "question" (some "elicitation") now)
    0 fuel

/-- `_handle_signal` (lines 177–181): `_cleanup(pending_file, response_file)`
then `sys.exit(1)`; the session status is deliberately left untouched
("Keep status as 'question'"). -/
def handle_signal (info : InfoFile) : Result :=
  { pendingExists := false, responseExists := false, info := info,
    output := none, exitCode := 1 }

end ElicitationRequest

namespace ToolActivity

/-- `main` of `hooks/tool_activity.py` restricted to its effect on the
session's `info.json` (the hook exits silently when the file is missing or
unreadable).  Lines 36–46: only when `info.get("status")` is `"question"`
or `"permission"` does it rewrite status to `"working"`, `waiting_for` to
`None`, and bump `last_updated`; any other current status (including
`"done"`, `"idle"`, a missing key) leaves the file untouched. -/
def main (info : InfoFile) (now : Nat) : InfoFile :=
  match info with
  | .missing => .missing
  | .malformed => .malformed
  | .valid i =>
      if i.status = some "question" ∨ i.status = some "permission" then
        .valid { i with status := some "working", waiting_for := none,
                        last_updated := some now }
      else .valid i

end ToolActivity

namespace SessionStart

/-- `main` of `hooks/session_start.py` as a function from the hook input
(`session_id`, `cwd`, `os.getppid()`, the VS Code environment detection)
to the written record: `none` when the hook exits without touching the
filesystem (`if not session_id: sys.exit(0)`), otherwise the session
directory path it creates and the `info.json` content it writes.  Note the
ONLY identifier check is non-emptiness. -/
def main (session_id cwd : String) (ppid : Nat) (vscode : Bool) (now : Nat) :
    Option (String × SessionInfo) :=
  if session_id = "" then none
  else
    some (sessionDirPath session_id,
      { session_id := some session_id,
        cwd := some cwd,
        project_name := some (basename cwd),
        parent_pid := some ppid,
        client := some (if vscode then "vscode" else "terminal"),
        status := some "working",
        waiting_for := none,
        last_updated := some now })

end SessionStart

namespace Helper

/-- `POLL_INTERVAL`/`DISCOVER_EVERY`: process discovery runs every 5th
responder poll cycle. -/
def DISCOVER_EVERY : Nat := 5

/-- `STALE_THRESHOLD = 86400` seconds (24 hours). -/
def STALE_THRESHOLD : Nat := 86400

/-- Parsed content of a `pending/<rid>.json` file (state-relevant fields;
the payload — tool name, description, questions — is carried opaquely by
the tray UI and omitted). -/
structure PendingReq where
  id : Option String
  type : Option String
  session_id : Option String
  pid : Option Nat
deriving Repr, DecidableEq

/-- A pending file on disk: present but unreadable, or readable. -/
inductive PendingFile
  | unreadable
  | valid (r : PendingReq)
deriving Repr, DecidableEq

/-- One `sessions/<sid>/` directory: its `info.json` and its `pending/`
directory, keyed by base filename (without the `.json` extension). -/
structure SessionDir where
  info : InfoFile
  pending : List (String × PendingFile)
deriving Repr, DecidableEq

/-- The `sessions/` tree: session-id directory name → directory. -/
abbrev SessionsFS : Type := List (String × SessionDir)

/-- Python dict assignment `m[k] = v` on a JSON-object model (an
association list with the dict's unique keys, in insertion order):
replace the binding of `k` in place, or append a new one. -/
def dictInsert {α : Type} (m : List (String × α)) (k : String) (v : α) :
    List (String × α) :=
  match m with
  | [] => [(k, v)]
  | p :: tl => if p.1 == k then (k, v) :: tl else p :: dictInsert tl k v

/-- Python dict lookup `m.get(k)`. -/
def dictGet {α : Type} (m : List (String × α)) (k : String) : Option α :=
  (m.find? (fun p => p.1 == k)).map (fun p => p.2)

/-- `_pid_alive` probes the OS process table; the table is passed in as
`alive`.  (`int(pid)` `ValueError`/`TypeError` → `False` is covered by
`parent_pid`/`pid` being parsed as `Option Nat`.) -/
def pid_alive (alive : Nat → Bool) (pid : Option Nat) : Bool :=
  match pid with
  | none => false
  | some p => alive p

/-- `_read_sessions`: rebuild `self.sessions` from disk, skipping sessions
with a missing or unreadable `info.json`. -/
def read_sessions (fs : SessionsFS) : List (String × SessionInfo) :=
  fs.filterMap (fun e =>
    match e.2.info with
    | .valid i => some (e.1, i)
    | _ => none)

/-- `_cleanup_dead_sessions` (lines 257–268): a session is dead when its
record's `parent_pid` is absent (`pid is None`) or `_pid_alive` fails;
dead sessions are deleted from `self.sessions` and their whole directory
(`shutil.rmtree`) — including `pending/` — is removed. -/
def dead_session (alive : Nat → Bool) (i : SessionInfo) : Bool :=
  match i.parent_pid with
  | none => true
  | some p => !(alive p)

/-- The combined effect of `_cleanup_dead_sessions` on `self.sessions` and
on the `sessions/` tree. -/
def cleanup_dead_sessions (alive : Nat → Bool)
    (mem : List (String × SessionInfo)) (fs : SessionsFS) :
    List (String × SessionInfo) × SessionsFS :=
  let deadIds := (mem.filter (fun e => dead_session alive e.2)).map (fun e => e.1)
  (mem.filter (fun e => !(dead_session alive e.2)),
   fs.filter (fun e => !(deadIds.contains e.1)))

/-- The responder's view of one pending request after
`_read_pending_requests`: the parsed fields plus the injected
`_session_id` (the directory the file was found in). -/
structure PendingData where
  type : Option String
  session_id : Option String
  pid : Option Nat
  dirSession : String
deriving Repr, DecidableEq

/-- `_read_pending_requests` (lines 365–384): build
`self.pending_requests`, a dict keyed by `data.get("id", filename[:-5])`,
skipping unreadable files; later files overwrite earlier dict entries. -/
def read_pending_requests (fs : SessionsFS) : List (String × PendingData) :=
  fs.foldl (fun acc e =>
    e.2.pending.foldl (fun acc p =>
      match p.2 with
      | .unreadable => acc
      | .valid r =>
          dictInsert acc (r.id.getD p.1)
            { type := r.type, session_id := r.session_id, pid := r.pid,
              dirSession := e.1 }) acc) []

/-- The staleness test of `_cleanup_stale_pending` (lines 389–404),
mirroring the `if`/`elif` chain: hook pid recorded, truthy, and dead; or
request type does not match the owning session's current status; or the
session no longer exists (subsumed by the status test, as in the source,
since a missing session has status `None`). -/
def stale_pending (alive : Nat → Bool) (mem : List (String × SessionInfo))
    (req : PendingData) : Bool :=
  let sid := req.session_id.getD req.dirSession
  let session := dictGet mem sid
  let sessionStatus := session.bind (fun s => s.status)
  if (match req.pid with
      | some p => (p != 0) && !(alive p)
      | none => false) then true
  else if req.type == some "elicitation" && !(sessionStatus == some "question")
    then true
  else if !(req.type == some "elicitation")
         && !(sessionStatus == some "permission") then true
  else if session.isNone then true
  else false

/-- `os.unlink(SESSIONS_DIR/<sid>/pending/<rid>.json)`, ignoring
`FileNotFoundError`. -/
def remove_pending_file (fs : SessionsFS) (sid rid : String) : SessionsFS :=
  fs.map (fun e =>
    if e.1 == sid then
      (e.1, { e.2 with pending := e.2.pending.filter (fun p => !(p.1 == rid)) })
    else e)

/-- `_cleanup_stale_pending`: unlink the pending file of every stale
request (keyed by the dict key `rid`, under
`req.get("session_id", req.get("_session_id", ""))`). -/
def cleanup_stale_pending (alive : Nat → Bool)
    (mem : List (String × SessionInfo)) (pend : List (String × PendingData))
    (fs : SessionsFS) : SessionsFS :=
  (pend.filter (fun p => stale_pending alive mem p.2)).foldl
    (fun fs p => remove_pending_file fs (p.2.session_id.getD p.2.dirSession) p.1)
    fs

/-- `_cleanup_stale_sessions` (lines 766–781): delete (`rmtree`) every
session directory whose `info.json` is missing, unreadable, or whose
`now - data.get("last_updated", 0) > STALE_THRESHOLD` (the subtraction is
over Python numbers, hence `Int`). -/
def cleanup_stale_sessions (now : Nat) (fs : SessionsFS) : SessionsFS :=
  fs.filter (fun e =>
    match e.2.info with
    | .missing => false
    | .malformed => false
    | .valid i =>
        !(decide ((now : Int) - (i.last_updated.getD 0 : Int)
            > (STALE_THRESHOLD : Int))))

/-- The external world `_discover_unregistered_sessions` consults:
the process table filtered to claude-named processes (in iteration
order, with `proc.cwd()` resolved to `none` on access errors), and the
`~/.claude/projects/<name>` directory listings as `(filename, mtime)`
pairs (`none` when `os.path.isdir` fails). -/
structure DiscoverEnv where
  candidates : List (Nat × Option String)
  projects : String → Option (List (String × Nat))

/-- `cwd.replace(":", "-").replace("\\", "-").replace("/", "-")`
(all three replacements are single-character, hence a character map). -/
def project_dir_name (cwd : String) : String :=
  (cwd.data.map (fun c => if c == ':' || c == '\\' || c == '/' then '-' else c)).asString

/-- Python `fname.endswith(post)`. -/
def strEndsWith (s post : String) : Bool :=
  post.data.isSuffixOf s.data

/-- Python `fname[:-k]`. -/
def strDropRight (s : String) (k : Nat) : String :=
  (s.data.take (s.data.length - k)).asString

/-- The most-recently-modified `.jsonl` scan (lines 311–326): strictly
greater mtime wins, starting from `best_mtime = 0`, taking `fname[:-6]`. -/
def best_jsonl (listing : List (String × Nat)) : Option String :=
  (listing.foldl (fun st f =>
      if strEndsWith f.1 ".jsonl" && f.2 > st.2 then
        (some (strDropRight f.1 6), f.2)
      else st)
    ((none : Option String), 0)).1

/-- The record `_discover_unregistered_sessions` synthesizes for a newly
discovered session (note: no `client` key). -/
def discovered_info (sid cwd : String) (pid now : Nat) : SessionInfo :=
  { session_id := some sid, cwd := some cwd,
    project_name := some (basename cwd), parent_pid := some pid,
    client := none, status := some "working", waiting_for := none,
    last_updated := some now }

/-- `os.path.isfile`-style lookup of a session directory. -/
def fsLookup : SessionsFS → String → Option SessionDir
  | [], _ => none
  | e :: tl, sid => if e.1 == sid then some e.2 else fsLookup tl sid

/-- Overwrite the directory stored under `sid`. -/
def fsUpdate : SessionsFS → String → SessionDir → SessionsFS
  | [], _, _ => []
  | e :: tl, sid, d =>
      if e.1 == sid then (sid, d) :: fsUpdate tl sid d
      else e :: fsUpdate tl sid d

/-- The per-candidate body of `_discover_unregistered_sessions`
(lines 302–360): map the candidate's cwd to a projects directory, pick the
most recent `.jsonl` session id; skip if it is already in `self.sessions`;
if its `info.json` exists on disk, re-read it and overwrite only
`parent_pid` (unreadable → `except ... pass`); otherwise create the
directory (with `pending/`) and a fresh record. -/
def discover_candidate (projects : String → Option (List (String × Nat)))
    (mem : List (String × SessionInfo)) (now : Nat) (fs : SessionsFS)
    (pid : Nat) (cwd : String) : SessionsFS :=
  match projects (project_dir_name cwd) with
  | none => fs
  | some listing =>
      match best_jsonl listing with
      | none => fs
      | some sid =>
          if mem.any (fun e => e.1 == sid) then fs
          else
            match fsLookup fs sid with
            | some dir =>
                match dir.info with
                | .valid i =>
                    fsUpdate fs sid
                      { dir with info := .valid { i with parent_pid := some pid } }
                | .malformed => fs
                | .missing =>
                    fsUpdate fs sid
                      { dir with info := .valid (discovered_info sid cwd pid now) }
            | none =>
                fs ++ [(sid, { info := .valid (discovered_info sid cwd pid now),
                               pending := [] })]

/-- `_discover_unregistered_sessions` (lines 270–363): filter out pids
already registered (`data.get("parent_pid")` over `self.sessions`), drop
candidates whose cwd could not be resolved, then process each candidate.
(`psutil.process_iter` yields distinct pids, so the `pid_cwd` dict is the
filtered list.) -/
def discover_unregistered_sessions (env : DiscoverEnv)
    (mem : List (String × SessionInfo)) (now : Nat) (fs : SessionsFS) :
    SessionsFS :=
  let registered : List (Option Nat) := mem.map (fun e => e.2.parent_pid)
  let unreg := env.candidates.filter (fun c => !(registered.contains (some c.1)))
  let cands := unreg.filterMap (fun c => c.2.map (fun cw => (c.1, cw)))
  cands.foldl (fun fs pc => discover_candidate env.projects mem now fs pc.1 pc.2)
    fs

/-- The responder's in-memory state: `self.sessions`, the on-disk tree,
and `self._discover_counter` (`self.pending_requests` is rebuilt from disk
every cycle). -/
structure AppState where
  fs : SessionsFS
  mem_sessions : List (String × SessionInfo)
  discover_counter : Nat

/-- The `sessions/` tree right after the discovery step of `_poll`
(discovery runs when the incremented counter reaches `DISCOVER_EVERY`). -/
def poll_fs_after_discovery (env : DiscoverEnv) (now : Nat) (st : AppState) :
    SessionsFS :=
  if st.discover_counter + 1 ≥ DISCOVER_EVERY then
    discover_unregistered_sessions env st.mem_sessions now st.fs
  else st.fs

/-- `_poll` (lines 230–241) restricted to protocol state (the
`_update_icon` / `_rebuild_menu` steps only project state into the UI):
discovery every `DISCOVER_EVERY`th cycle, `_read_sessions`,
`_cleanup_dead_sessions`, `_read_pending_requests`,
`_cleanup_stale_pending`. -/
def poll (env : DiscoverEnv) (alive : Nat → Bool) (now : Nat)
    (st : AppState) : AppState :=
  let fs1 := poll_fs_after_discovery env now st
  let c2 := if st.discover_counter + 1 ≥ DISCOVER_EVERY then 0
            else st.discover_counter + 1
  let mem1 := read_sessions fs1
  let md := cleanup_dead_sessions alive mem1 fs1
  let pend := read_pending_requests md.2
  let fs3 := cleanup_stale_pending alive md.1 pend md.2
  { fs := fs3, mem_sessions := md.1, discover_counter := c2 }

/-- `ClaudeHelperApp.__init__`: `self.sessions = {}`,
`self._discover_counter = DISCOVER_EVERY`, and a startup
`_cleanup_stale_sessions()`. -/
def init_state (now : Nat) (fs : SessionsFS) : AppState :=
  { fs := cleanup_stale_sessions now fs, mem_sessions := [],
    discover_counter := DISCOVER_EVERY }

/-- A `responses/<rid>.json` document as written by the tray for an
elicitation answer. -/
structure ElicResponseDoc where
  id : String
  answers : List (String × String)
  timestamp : Nat
deriving Repr, DecidableEq

/-- `_write_elicitation_answer` (lines 585–604): start from the existing
response file's `answers` mapping (`{}` when the file is absent or
unreadable), set `answers[str(question_index)] = selected_label`, and
rewrite the whole document. -/
def write_elicitation_answer (prev : RespFile ElicResponseDoc)
    (request_id : String) (question_index : Nat) (selected_label : String)
    (now : Nat) : ElicResponseDoc :=
  let answers := match prev with
    | .valid d => d.answers
    | _ => []
  { id := request_id,
    answers := dictInsert answers (toString question_index) selected_label,
    timestamp := now }

end Helper

/-! ### Generic helpers and sample records used by the theorems -/

/-- The `status` field of a session record file, `none` when the file is
missing or unreadable. -/
def infoStatus : InfoFile → Option String
  | .missing => none
  | .malformed => none
  | .valid i => i.status

/-- A typical freshly started terminal session record. -/
def sampleInfo : SessionInfo :=
  { session_id := some "s1", cwd := some "/tmp/proj",
    project_name := some "proj", parent_pid := some 42,
    client := some "terminal", status := some "working",
    waiting_for := none, last_updated := some 10 }

/-- A session record in the middle of a permission prompt. -/
def samplePermissionInfo : SessionInfo :=
  { sampleInfo with status := some "permission",
                    waiting_for := some "permission" }

/-- A session record whose turn has finished. -/
def sampleDoneInfo : SessionInfo :=
  { sampleInfo with status := some "done", waiting_for := some "input" }

/-- Decimal digit list of `n`, most significant first: a total
specification of `Nat.toDigitsCore 10`, used to prove that Python's
`str(question_index)` (Lean's `toString`/`Nat.repr`) is injective — the
fact making the elicitation answer dict keys collision-free. -/
def natDigits (n : Nat) : List Char :=
  if _h : n < 10 then [Nat.digitChar n]
  else natDigits (n / 10) ++ [Nat.digitChar (n % 10)]
decreasing_by exact Nat.div_lt_self (by omega) (by omega)

/-- Two `info.json` states that agree except possibly in `parent_pid`
(the frame property of discovery backfill): readable records keep every
field but the pid; a missing or unreadable record stays as it was. -/
def samePidFrame : InfoFile → InfoFile → Prop
  | InfoFile.valid i, InfoFile.valid j =>
      j.session_id = i.session_id ∧ j.cwd = i.cwd ∧
      j.project_name = i.project_name ∧ j.client = i.client ∧
      j.status = i.status ∧ j.waiting_for = i.waiting_for ∧
      j.last_updated = i.last_updated
  | x, y => y = x

/-- A discovery environment in which no monitored process is running. -/
def noProcs : Helper.DiscoverEnv :=
  { candidates := [], projects := fun _ => none }

/-- `sampleInfo` last updated at epoch 0 (far beyond the staleness
threshold for any realistic `now`), owned by live pid 42. -/
def staleAliveInfo : SessionInfo :=
  { sampleInfo with last_updated := some 0 }

/-- A responder state tracking only that stale-but-alive session. -/
def staleAliveState : Helper.AppState :=
  { fs := [("s1", { info := InfoFile.valid staleAliveInfo, pending := [] })],
    mem_sessions := [("s1", staleAliveInfo)],
    discover_counter := Helper.DISCOVER_EVERY }

/-- A discovery environment with one unregistered claude process (pid 99,
cwd `/tmp/proj`) whose project directory holds one session artifact
`abc.jsonl`. -/
def oneCandidateEnv : Helper.DiscoverEnv :=
  { candidates := [(99, some "/tmp/proj")],
    projects := fun name =>
      if name = "-tmp-proj" then some [("abc.jsonl", 7)] else none }

/-- A session directory holding `sampleInfo` and an empty `pending/`. -/
def sampleDir : Helper.SessionDir :=
  { info := InfoFile.valid sampleInfo, pending := [] }

/-- A session directory that already holds a record and a pending file. -/
def abcDir : Helper.SessionDir :=
  { info := InfoFile.valid samplePermissionInfo,
    pending := [("r1", Helper.PendingFile.valid
      { id := some "r1", type := some "permission",
        session_id := some "abc", pid := some 7 })] }

/-- An on-disk tree that already holds a record for session `abc`. -/
def existingAbcFS : Helper.SessionsFS :=
  [("abc", abcDir)]

/-- If no poll tick ever sees a readable response file, the permission
poll loop runs to fuel exhaustion: both files cleaned up, session record
untouched, no output, exit code 1. -/
lemma PermissionRequest.poll_perm_never_readable
    (env : Nat → RespFile PermResponse) (now : Nat) (info : InfoFile)
    (h : ∀ k r, env k ≠ RespFile.valid r) :
    ∀ (fuel tick : Nat),
      PermissionRequest.poll env now info tick fuel =
        { pendingExists := false, responseExists := false, info := info,
          output := none, exitCode := 1 } := by
  intro fuel
  induction fuel with
  | zero => intro tick; rfl
  | succ f ih =>
      intro tick
      rw [PermissionRequest.poll]
      cases henv : env tick with
      | valid r => exact absurd henv (h tick r)
      | absent => exact ih (tick + 1)
      | unreadable => exact ih (tick + 1)

/-- Same for the elicitation poll loop. -/
lemma ElicitationRequest.poll_elic_never_readable
    (env : Nat → RespFile ElicResponse) (qd : List ElicitationRequest.Question)
    (now : Nat) (info : InfoFile)
    (h : ∀ k r, env k ≠ RespFile.valid r) :
    ∀ (fuel tick : Nat),
      ElicitationRequest.poll env qd now info tick fuel =
        { pendingExists := false, responseExists := false, info := info,
          output := none, exitCode := 1 } := by
  intro fuel
  induction fuel with
  | zero => intro tick; rfl
  | succ f ih =>
      intro tick
      rw [ElicitationRequest.poll]
      cases henv : env tick with
      | valid r => exact absurd henv (h tick r)
      | absent => exact ih (tick + 1)
      | unreadable => exact ih (tick + 1)

/-- If tick `tick + k` is the first tick (from `tick`) with a readable
response and it is within the fuel budget, the permission poll loop
consumes exactly that response. -/
lemma PermissionRequest.poll_first_readable
    (env : Nat → RespFile PermResponse) (now : Nat) (info : InfoFile) :
    ∀ (k tick fuel : Nat) (r : PermResponse), k < fuel →
      env (tick + k) = RespFile.valid r →
      (∀ j, j < k → ∀ r', env (tick + j) ≠ RespFile.valid r') →
      PermissionRequest.poll env now info tick fuel =
        { pendingExists := false, responseExists := false,
          info := PermissionRequest.update_session_status info "working" now,
          output := some (PermissionRequest.normalize_decision r),
          exitCode := 0 } := by
  intro k
  induction k with
  | zero =>
      intro tick fuel r hk hr _
      match fuel, hk with
      | f + 1, _ =>
        rw [PermissionRequest.poll]
        rw [show tick + 0 = tick from rfl] at hr
        rw [hr]
  | succ k ih =>
      intro tick fuel r hk hr hfirst
      match fuel, hk with
      | f + 1, hk =>
        rw [PermissionRequest.poll]
        cases henv : env tick with
        | valid r' =>
            exact absurd henv
              (by simpa using hfirst 0 (Nat.succ_pos k) r')
        | absent =>
            exact ih (tick + 1) f r (by omega)
              (by rw [show tick + 1 + k = tick + (k + 1) from by omega]; exact hr)
              (fun j hj r' => by
                rw [show tick + 1 + j = tick + (j + 1) from by omega]
                exact hfirst (j + 1) (by omega) r')
        | unreadable =>
            exact ih (tick + 1) f r (by omega)
              (by rw [show tick + 1 + k = tick + (k + 1) from by omega]; exact hr)
              (fun j hj r' => by
                rw [show tick + 1 + j = tick + (j + 1) from by omega]
                exact hfirst (j + 1) (by omega) r')

/-! ### C1 -/

/-- C1: in the blocking permission handshake, if a Response file for the
request id becomes readable before the timeout (at the first readable poll
tick `k` within the fuel budget), `_run_terminal_mode` deletes both the
pending-request file and the response file, sets the session status back
to `"working"`, prints the normalized decision object — mapping `allow`
and `always_allow` to behavior `"allow"` and `deny` to behavior `"deny"` —
and exits with code 0. -/
theorem c1_permission_handshake_consumes_response
    (env : Nat → RespFile PermResponse) (i : SessionInfo)
    (fuel now k : Nat) (r : PermResponse)
    (hk : k < fuel) (hr : env k = RespFile.valid r)
    (hfirst : ∀ j, j < k → ∀ r', env j ≠ RespFile.valid r') :
    PermissionRequest.run_terminal_mode env (InfoFile.valid i) fuel now =
      { pendingExists := false, responseExists := false,
        info := InfoFile.valid
          { i with status := some "working", waiting_for := none,
                   last_updated := some now },
        output := some (PermissionRequest.normalize_decision r),
        exitCode := 0 } ∧
    (PermissionRequest.normalize_decision { decision := some "allow" }).behavior
      = "allow" ∧
    (PermissionRequest.normalize_decision
      { decision := some "always_allow" }).behavior = "allow" ∧
    (PermissionRequest.normalize_decision { decision := some "deny" }).behavior
      = "deny" := by
  refine ⟨?_, by decide, by decide, by decide⟩
  rw [PermissionRequest.run_terminal_mode,
    PermissionRequest.poll_first_readable env now _ k 0 fuel r hk
      (by simpa using hr) (fun j hj r' => by simpa using hfirst j hj r')]
  rfl

/-- Witness for C1: a deny Response readable at the very first tick. -/
theorem c1_witness :
    PermissionRequest.run_terminal_mode
        (fun _ => RespFile.valid { decision := some "deny" })
        (InfoFile.valid sampleInfo) 600 99 =
      { pendingExists := false, responseExists := false,
        info := InfoFile.valid
          { sampleInfo with status := some "working", waiting_for := none,
                            last_updated := some 99 },
        output := some { behavior := "deny",
                         message := some "Denied via Claude Helper system tray" },
        exitCode := 0 } := by
  have h := c1_permission_handshake_consumes_response
    (fun _ => RespFile.valid { decision := some "deny" }) sampleInfo 600 99 0
    { decision := some "deny" } (by omega) rfl
    (fun j hj _ => absurd hj (Nat.not_lt_zero j))
  exact h.1

/-! ### C2 -/

/-- C2: the generic tool-activity hook sets status to `"working"` (and
`waiting_for` to `null`, bumping `last_updated`) exactly when the current
status is `"question"` or `"permission"`; with status `"done"` or `"idle"`
the record is left entirely unchanged, and any change it ever makes
requires the `"question"`/`"permission"` precondition. -/
theorem c2_tool_activity_status_precondition (i : SessionInfo) (now : Nat) :
    (i.status = some "question" ∨ i.status = some "permission" →
      ToolActivity.main (InfoFile.valid i) now =
        InfoFile.valid { i with status := some "working", waiting_for := none,
                                last_updated := some now }) ∧
    (i.status = some "done" ∨ i.status = some "idle" →
      ToolActivity.main (InfoFile.valid i) now = InfoFile.valid i) ∧
    (ToolActivity.main (InfoFile.valid i) now ≠ InfoFile.valid i →
      i.status = some "question" ∨ i.status = some "permission") := by
  refine ⟨fun h => ?_, fun h => ?_, fun h => ?_⟩
  · rw [ToolActivity.main, if_pos h]
  · rcases h with h | h <;> simp [ToolActivity.main, h]
  · by_contra hc
    exact h (by rw [ToolActivity.main, if_neg hc])

/-- Witness for C2: a `done` session is untouched; a `permission` session
is reset to `working`. -/
theorem c2_witness :
    ToolActivity.main (InfoFile.valid sampleDoneInfo) 7 =
      InfoFile.valid sampleDoneInfo ∧
    ToolActivity.main (InfoFile.valid samplePermissionInfo) 7 =
      InfoFile.valid
        { samplePermissionInfo with
          status := some "working", waiting_for := none,
          last_updated := some 7 } :=
  ⟨(c2_tool_activity_status_precondition sampleDoneInfo 7).2.1 (Or.inl rfl),
   (c2_tool_activity_status_precondition samplePermissionInfo 7).1 (Or.inr rfl)⟩

/-! ### C3 -/

/-- C3 counterexample: the claimed asymmetry does not exist in the code.
A blocking permission request that times out with no Response does NOT
reset the session status to `"working"`: `_run_terminal_mode`'s `finally`
block deliberately keeps it at `"permission"` (source comment at
`hooks/permission_request.py:160`). -/
theorem c3_counterexample :
    infoStatus (PermissionRequest.run_terminal_mode (fun _ => RespFile.absent)
        (InfoFile.valid sampleInfo) 600 5).info = some "permission" ∧
    ¬ infoStatus (PermissionRequest.run_terminal_mode (fun _ => RespFile.absent)
        (InfoFile.valid sampleInfo) 600 5).info = some "working" := by
  have h := PermissionRequest.poll_perm_never_readable (fun _ => RespFile.absent) 5
    (PermissionRequest.update_session_status (InfoFile.valid sampleInfo)
      "permission" 5)
    (fun _ _ h => RespFile.noConfusion h) 600 0
  rw [PermissionRequest.run_terminal_mode, h]
  exact ⟨rfl, by decide⟩

/-- C3 (amended): the timeout behavior is symmetric, not asymmetric: when
a blocking permission request times out with no Response the session
status is left at `"permission"`, and when a blocking elicitation request
times out the status is left at `"question"`; neither producer resets the
status to `"working"` on timeout. -/
theorem c3_amended_timeout_preserves_status
    (envP : Nat → RespFile PermResponse) (envE : Nat → RespFile ElicResponse)
    (qd : List ElicitationRequest.Question) (iP iE : SessionInfo)
    (fuelP fuelE nowP nowE : Nat)
    (hP : ∀ k r, envP k ≠ RespFile.valid r)
    (hE : ∀ k r, envE k ≠ RespFile.valid r) :
    (PermissionRequest.run_terminal_mode envP (InfoFile.valid iP) fuelP nowP).info
      = InfoFile.valid
          { iP with
            status := some "permission", waiting_for := none,
            last_updated := some nowP } ∧
    (ElicitationRequest.run_menubar_mode envE qd (InfoFile.valid iE)
        fuelE nowE).info
      = InfoFile.valid
          { iE with
            status := some "question", waiting_for := some "elicitation",
            last_updated := some nowE } := by
  constructor
  · rw [PermissionRequest.run_terminal_mode,
      PermissionRequest.poll_perm_never_readable envP nowP _ hP fuelP 0]
    rfl
  · rw [ElicitationRequest.run_menubar_mode,
      ElicitationRequest.poll_elic_never_readable envE qd nowE _ hE fuelE 0]
    rfl

/-- Witness for the amended C3. -/
theorem c3_witness :
    (PermissionRequest.run_terminal_mode (fun _ => RespFile.absent)
        (InfoFile.valid sampleInfo) 600 5).info
      = InfoFile.valid
          { sampleInfo with
            status := some "permission", waiting_for := none,
            last_updated := some 5 } ∧
    (ElicitationRequest.run_menubar_mode (fun _ => RespFile.absent) []
        (InfoFile.valid sampleInfo) 600 5).info
      = InfoFile.valid
          { sampleInfo with
            status := some "question", waiting_for := some "elicitation",
            last_updated := some 5 } :=
  c3_amended_timeout_preserves_status (fun _ => RespFile.absent)
    (fun _ => RespFile.absent) [] sampleInfo sampleInfo 600 600 5 5
    (fun _ _ h => RespFile.noConfusion h) (fun _ _ h => RespFile.noConfusion h)

/-! ### C4 -/

/-- C4 counterexample: the claim that the signal handler restores the
session status to `"working"` is false: `_handle_signal` cleans up and
exits 1 but deliberately keeps the status (source comments at
`hooks/permission_request.py:89` and `hooks/elicitation_request.py:179`). -/
theorem c4_counterexample :
    (PermissionRequest.handle_signal
        (InfoFile.valid samplePermissionInfo)).exitCode = 1 ∧
    infoStatus (PermissionRequest.handle_signal
        (InfoFile.valid samplePermissionInfo)).info = some "permission" ∧
    ¬ infoStatus (PermissionRequest.handle_signal
        (InfoFile.valid samplePermissionInfo)).info = some "working" := by
  exact ⟨rfl, rfl, by decide⟩

/-- C4 (amended): for every blocking producer, the termination/hangup
signal handler performs the same file cleanup as a timeout — removing the
pending and response files — and exits with a nonzero code indicating
"handled elsewhere", but it leaves the session status unchanged (still
`"permission"` resp. `"question"`) rather than restoring `"working"`. -/
theorem c4_amended_signal_handler_cleanup (info infoE : InfoFile) :
    ((PermissionRequest.handle_signal info).pendingExists = false ∧
     (PermissionRequest.handle_signal info).responseExists = false ∧
     (PermissionRequest.handle_signal info).info = info ∧
     (PermissionRequest.handle_signal info).exitCode = 1) ∧
    ((ElicitationRequest.handle_signal infoE).pendingExists = false ∧
     (ElicitationRequest.handle_signal infoE).responseExists = false ∧
     (ElicitationRequest.handle_signal infoE).info = infoE ∧
     (ElicitationRequest.handle_signal infoE).exitCode = 1) :=
  ⟨⟨rfl, rfl, rfl, rfl⟩, ⟨rfl, rfl, rfl, rfl⟩⟩

/-! ### C6 -/

/-- C6: a blocking producer (permission or elicitation) whose
PendingRequest never receives a readable Response exits with the nonzero
"fall back to native" code once the timeout fuel elapses, and its
pending-request file is removed on the way out. -/
theorem c6_timeout_fallback_no_residual_pending
    (envP : Nat → RespFile PermResponse) (envE : Nat → RespFile ElicResponse)
    (qd : List ElicitationRequest.Question) (infoP infoE : InfoFile)
    (fuelP fuelE nowP nowE : Nat)
    (hP : ∀ k r, envP k ≠ RespFile.valid r)
    (hE : ∀ k r, envE k ≠ RespFile.valid r) :
    ((PermissionRequest.run_terminal_mode envP infoP fuelP nowP).exitCode = 1 ∧
     (PermissionRequest.run_terminal_mode envP infoP fuelP nowP).pendingExists
       = false) ∧
    ((ElicitationRequest.run_menubar_mode envE qd infoE fuelE nowE).exitCode
       = 1 ∧
     (ElicitationRequest.run_menubar_mode envE qd infoE fuelE nowE).pendingExists
       = false) := by
  rw [PermissionRequest.run_terminal_mode,
    PermissionRequest.poll_perm_never_readable envP nowP _ hP fuelP 0,
    ElicitationRequest.run_menubar_mode,
    ElicitationRequest.poll_elic_never_readable envE qd nowE _ hE fuelE 0]
  exact ⟨⟨rfl, rfl⟩, ⟨rfl, rfl⟩⟩

/-- Witness for C6: no response file ever appears. -/
theorem c6_witness :
    ((PermissionRequest.run_terminal_mode (fun _ => RespFile.absent)
        (InfoFile.valid sampleInfo) 600 99).exitCode = 1 ∧
     (PermissionRequest.run_terminal_mode (fun _ => RespFile.absent)
        (InfoFile.valid sampleInfo) 600 99).pendingExists = false) ∧
    ((ElicitationRequest.run_menubar_mode (fun _ => RespFile.absent) []
        (InfoFile.valid sampleInfo) 600 99).exitCode = 1 ∧
     (ElicitationRequest.run_menubar_mode (fun _ => RespFile.absent) []
        (InfoFile.valid sampleInfo) 600 99).pendingExists = false) :=
  c6_timeout_fallback_no_residual_pending (fun _ => RespFile.absent)
    (fun _ => RespFile.absent) [] (InfoFile.valid sampleInfo)
    (InfoFile.valid sampleInfo) 600 600 99 99
    (fun _ _ h => RespFile.noConfusion h) (fun _ _ h => RespFile.noConfusion h)

/-! ### C7 -/

/-- C7: the claim that every hook entry point validates identifiers
against the restrictive pattern before building a path is contradicted by
the code: `session_start.py` accepts ANY non-empty `session_id` —
including one containing `../` — and proceeds to build and populate the
session directory path from it; only `permission_request.py` checks
`_SAFE_ID`.  This theorem evaluates the embedded `session_start.main` at
the failing input. -/
theorem c7_session_start_builds_path_from_unsafe_id :
    SAFE_ID "../evil" = false ∧
    SessionStart.main "../evil" "/tmp/proj" 42 false 0 =
      some (STATE_DIR ++ "/sessions/" ++ "../evil",
        { session_id := some "../evil", cwd := some "/tmp/proj",
          project_name := some "proj", parent_pid := some 42,
          client := some "terminal", status := some "working",
          waiting_for := none, last_updated := some 0 }) := by
  exact ⟨by decide, by decide⟩

/-! ### C5: injectivity of the decimal key encoding, dict lemmas, merge -/

/-- `natDigits` below 10. -/
lemma natDigits_lt (n : Nat) (h : n < 10) :
    natDigits n = [Nat.digitChar n] := by
  rw [natDigits]
  exact dif_pos h

/-- `natDigits` at 10 and above. -/
lemma natDigits_ge (n : Nat) (h : ¬ n < 10) :
    natDigits n = natDigits (n / 10) ++ [Nat.digitChar (n % 10)] := by
  conv_lhs => rw [natDigits]
  exact dif_neg h

/-- With enough fuel, `Nat.toDigitsCore 10` computes `natDigits`. -/
lemma toDigitsCore_eq_natDigits :
    ∀ (fuel n : Nat) (l : List Char), n < fuel →
      Nat.toDigitsCore 10 fuel n l = natDigits n ++ l := by
  intro fuel
  induction fuel with
  | zero => intro n l h; omega
  | succ f ih =>
      intro n l h
      simp only [Nat.toDigitsCore]
      by_cases h10 : n / 10 = 0
      · have hn : n < 10 := (Nat.div_eq_zero_iff (by omega)).mp h10
        rw [if_pos h10, natDigits_lt n hn, Nat.mod_eq_of_lt hn]
        rfl
      · have hn : ¬ n < 10 := by
          intro hlt
          exact h10 (Nat.div_eq_of_lt hlt)
        have hdiv : n / 10 < n := Nat.div_lt_self (by omega) (by omega)
        rw [if_neg h10, ih (n / 10) _ (by omega), natDigits_ge n hn,
          List.append_assoc]
        rfl

/-- `Nat.repr` is the `natDigits` list packed into a string. -/
lemma repr_eq_natDigits (n : Nat) : Nat.repr n = (natDigits n).asString := by
  rw [Nat.repr, Nat.toDigits,
    toDigitsCore_eq_natDigits (n + 1) n [] (Nat.lt_succ_self n),
    List.append_nil]

/-- `Nat.digitChar` is injective below 10. -/
lemma digitChar_injOn :
    ∀ a, a < 10 → ∀ b, b < 10 → Nat.digitChar a = Nat.digitChar b → a = b := by
  decide

/-- A decimal digit list is never empty. -/
lemma natDigits_ne_nil (n : Nat) : natDigits n ≠ [] := by
  rw [natDigits]
  split
  · simp
  · simp

/-- `natDigits` is injective. -/
lemma natDigits_injective : ∀ n m : Nat, natDigits n = natDigits m → n = m := by
  intro n
  induction n using Nat.strong_induction_on with
  | _ n ih =>
      intro m h
      by_cases hn : n < 10 <;> by_cases hm : m < 10
      · rw [natDigits_lt n hn, natDigits_lt m hm] at h
        exact digitChar_injOn n hn m hm (by simpa using h)
      · rw [natDigits_lt n hn, natDigits_ge m hm] at h
        have h' : ([] : List Char) ++ [Nat.digitChar n] =
            natDigits (m / 10) ++ [Nat.digitChar (m % 10)] := by
          simpa using h
        obtain ⟨h1, -⟩ := List.append_inj' h' rfl
        exact absurd h1.symm (natDigits_ne_nil (m / 10))
      · rw [natDigits_ge n hn, natDigits_lt m hm] at h
        have h' : natDigits (n / 10) ++ [Nat.digitChar (n % 10)] =
            ([] : List Char) ++ [Nat.digitChar m] := by
          simpa using h
        obtain ⟨h1, -⟩ := List.append_inj' h' rfl
        exact absurd h1 (natDigits_ne_nil (n / 10))
      · rw [natDigits_ge n hn, natDigits_ge m hm] at h
        obtain ⟨h1, h2⟩ := List.append_inj' h rfl
        have hmod : n % 10 = m % 10 :=
          digitChar_injOn (n % 10) (Nat.mod_lt n (by omega)) (m % 10)
            (Nat.mod_lt m (by omega)) (by simpa using h2)
        have hdivlt : n / 10 < n := Nat.div_lt_self (by omega) (by omega)
        have hdiv : n / 10 = m / 10 := ih (n / 10) hdivlt (m / 10) h1
        omega

/-- `Nat.repr` — Python's `str` on a question index — is injective. -/
lemma natRepr_injective (n m : Nat) (h : Nat.repr n = Nat.repr m) : n = m := by
  apply natDigits_injective
  rw [repr_eq_natDigits, repr_eq_natDigits] at h
  simpa [List.asString, String.ext_iff] using h

/-- Dict assignment followed by lookup of the same key. -/
lemma dictGet_insert_self {α : Type} (m : List (String × α)) (k : String)
    (v : α) : Helper.dictGet (Helper.dictInsert m k v) k = some v := by
  induction m with
  | nil => simp [Helper.dictInsert, Helper.dictGet]
  | cons p tl ih =>
      simp only [Helper.dictInsert]
      by_cases h : p.1 == k
      · rw [if_pos h]
        simp [Helper.dictGet]
      · rw [if_neg h]
        simpa [Helper.dictGet, List.find?_cons, h] using ih

/-- Dict assignment of key `k'` does not affect lookups of `k ≠ k'`. -/
lemma dictGet_insert_other {α : Type} (m : List (String × α)) (k' k : String)
    (v : α) (hkk : ¬ k' = k) :
    Helper.dictGet (Helper.dictInsert m k' v) k = Helper.dictGet m k := by
  induction m with
  | nil => simp [Helper.dictInsert, Helper.dictGet, List.find?_cons, hkk]
  | cons p tl ih =>
      simp only [Helper.dictInsert]
      by_cases h : p.1 == k'
      · rw [if_pos h]
        have hpk : p.1 = k' := by simpa using h
        simp [Helper.dictGet, List.find?_cons, hpk, hkk]
      · rw [if_neg h]
        by_cases hpk : p.1 == k
        · simp [Helper.dictGet, List.find?_cons, hpk]
        · simpa [Helper.dictGet, List.find?_cons, hpk] using ih

/-- C5: incremental elicitation answers merge.  Writing an answer for
question index `i`, then later one for index `j ≠ i` of the same request,
yields a final Response whose `answers` mapping contains both — the later
`_write_elicitation_answer` never discards a previously recorded answer
for a different index. -/
theorem c5_elicitation_answers_merge
    (prev : RespFile Helper.ElicResponseDoc) (rid : String) (i j : Nat)
    (a b : String) (t1 t2 : Nat) (hij : i ≠ j) :
    Helper.dictGet (Helper.write_elicitation_answer
        (RespFile.valid (Helper.write_elicitation_answer prev rid i a t1))
        rid j b t2).answers (toString i) = some a ∧
    Helper.dictGet (Helper.write_elicitation_answer
        (RespFile.valid (Helper.write_elicitation_answer prev rid i a t1))
        rid j b t2).answers (toString j) = some b := by
  have hkey : ¬ (toString j : String) = toString i :=
    fun h => hij (natRepr_injective i j h.symm)
  constructor
  · show Helper.dictGet
      (Helper.dictInsert (Helper.dictInsert _ (toString i) a) (toString j) b)
      (toString i) = some a
    rw [dictGet_insert_other _ (toString j) (toString i) b hkey,
      dictGet_insert_self]
  · show Helper.dictGet
      (Helper.dictInsert (Helper.dictInsert _ (toString i) a) (toString j) b)
      (toString j) = some b
    rw [dictGet_insert_self]

/-! ### C8 / C9: responder garbage collection -/

/-- In a list whose keys are duplicate-free, a key determines its value. -/
lemma value_eq_of_nodup_keys {α : Type} (l : List (String × α))
    (hnd : (l.map (fun e => e.1)).Nodup) (sid : String) (a b : α)
    (ha : (sid, a) ∈ l) (hb : (sid, b) ∈ l) : a = b := by
  induction l with
  | nil => cases ha
  | cons p tl ih =>
      simp only [List.map_cons, List.nodup_cons] at hnd
      rcases List.mem_cons.mp ha with ha' | ha' <;>
        rcases List.mem_cons.mp hb with hb' | hb'
      · rw [← ha'] at hb'
        exact (Prod.mk.injEq _ _ _ _ ▸ hb' : _ ∧ _).2.symm
      · exfalso
        apply hnd.1
        rw [← ha']
        exact List.mem_map.mpr ⟨(sid, b), hb', rfl⟩
      · exfalso
        apply hnd.1
        rw [← hb']
        exact List.mem_map.mpr ⟨(sid, a), ha', rfl⟩
      · exact ih hnd.2 ha' hb'

/-- `os.unlink` inside one session's `pending/` never changes which
session directories exist. -/
lemma remove_pending_file_keys (fs : Helper.SessionsFS) (sid rid : String) :
    (Helper.remove_pending_file fs sid rid).map (fun e => e.1) =
      fs.map (fun e => e.1) := by
  rw [Helper.remove_pending_file, List.map_map]
  apply List.map_congr_left
  intro e _
  by_cases h : e.1 = sid <;> simp [h]

/-- The stale-pending sweep never changes which session directories
exist: it only unlinks files inside `pending/` subdirectories. -/
lemma cleanup_stale_pending_keys (alive : Nat → Bool)
    (mem : List (String × SessionInfo)) (pend : List (String × Helper.PendingData))
    (fs : Helper.SessionsFS) :
    (Helper.cleanup_stale_pending alive mem pend fs).map (fun e => e.1) =
      fs.map (fun e => e.1) := by
  rw [Helper.cleanup_stale_pending]
  generalize (pend.filter fun p => Helper.stale_pending alive mem p.2) = stale
  induction stale generalizing fs with
  | nil => rfl
  | cons p tl ih =>
      rw [List.foldl_cons, ih, remove_pending_file_keys]

/-- C8: on every responder poll cycle, every session whose record (as read
at the dead-session sweep, i.e. after the discovery step) has an absent
`parent_pid` or one that belongs to no running process is removed both
from the in-memory registry and — whole directory, `pending/` included —
from disk.  Stated first for `_cleanup_dead_sessions` itself, then for a
full `_poll` cycle. -/
theorem c8_dead_session_sweep
    (alive : Nat → Bool) (mem : List (String × SessionInfo))
    (fs : Helper.SessionsFS) (sid : String) (i : SessionInfo)
    (hnd : (mem.map (fun e => e.1)).Nodup)
    (hmem : (sid, i) ∈ mem)
    (hdead : Helper.dead_session alive i = true) :
    (¬ sid ∈ (Helper.cleanup_dead_sessions alive mem fs).1.map (fun e => e.1) ∧
     ¬ sid ∈ (Helper.cleanup_dead_sessions alive mem fs).2.map (fun e => e.1)) ∧
    (∀ (env : Helper.DiscoverEnv) (now : Nat) (st : Helper.AppState),
      Helper.read_sessions (Helper.poll_fs_after_discovery env now st) = mem →
      Helper.poll_fs_after_discovery env now st = fs →
      ¬ sid ∈ (Helper.poll env alive now st).mem_sessions.map (fun e => e.1) ∧
      ¬ sid ∈ (Helper.poll env alive now st).fs.map (fun e => e.1)) := by
  have hdeadIds : sid ∈
      ((mem.filter (fun e => Helper.dead_session alive e.2)).map
        (fun e => e.1)) :=
    List.mem_map.mpr ⟨(sid, i), List.mem_filter.mpr ⟨hmem, hdead⟩, rfl⟩
  have hmem' : ¬ sid ∈
      (Helper.cleanup_dead_sessions alive mem fs).1.map (fun e => e.1) := by
    intro hin
    rcases List.mem_map.mp hin with ⟨e, he, hkey⟩
    rcases List.mem_filter.mp he with ⟨hemem, hkeep⟩
    have h1 : (sid, e.2) ∈ mem := by
      rw [← hkey]
      exact hemem
    have h2 : e.2 = i := value_eq_of_nodup_keys mem hnd sid e.2 i h1 hmem
    rw [h2, hdead] at hkeep
    exact Bool.noConfusion hkeep
  have hfs' : ¬ sid ∈
      (Helper.cleanup_dead_sessions alive mem fs).2.map (fun e => e.1) := by
    intro hin
    rcases List.mem_map.mp hin with ⟨e, he, hkey⟩
    rcases List.mem_filter.mp he with ⟨-, hkeep⟩
    rw [hkey] at hkeep
    rw [Bool.not_eq_eq_eq_not, Bool.not_true, List.contains_eq_any_beq] at hkeep
    have : ((mem.filter (fun e => Helper.dead_session alive e.2)).map
        (fun e => e.1)).any (sid == ·) = true :=
      List.any_eq_true.mpr ⟨sid, hdeadIds, by simp⟩
    rw [this] at hkeep
    exact Bool.noConfusion hkeep
  refine ⟨⟨hmem', hfs'⟩, ?_⟩
  intro env now st h1 h2
  constructor
  · show ¬ sid ∈
      (Helper.cleanup_dead_sessions alive
        (Helper.read_sessions (Helper.poll_fs_after_discovery env now st))
        (Helper.poll_fs_after_discovery env now st)).1.map (fun e => e.1)
    rw [h1, h2]
    exact hmem'
  · show ¬ sid ∈
      (Helper.cleanup_stale_pending alive
        (Helper.cleanup_dead_sessions alive
          (Helper.read_sessions (Helper.poll_fs_after_discovery env now st))
          (Helper.poll_fs_after_discovery env now st)).1
        (Helper.read_pending_requests
          (Helper.cleanup_dead_sessions alive
            (Helper.read_sessions (Helper.poll_fs_after_discovery env now st))
            (Helper.poll_fs_after_discovery env now st)).2)
        (Helper.cleanup_dead_sessions alive
          (Helper.read_sessions (Helper.poll_fs_after_discovery env now st))
          (Helper.poll_fs_after_discovery env now st)).2).map (fun e => e.1)
    rw [cleanup_stale_pending_keys, h1, h2]
    exact hfs'

/-- Witness for C8: a one-session registry whose owner pid is dead. -/
theorem c8_witness :
    (¬ "s1" ∈ (Helper.cleanup_dead_sessions (fun _ => false)
        [("s1", sampleInfo)] [("s1", sampleDir)]).1.map (fun e => e.1) ∧
     ¬ "s1" ∈ (Helper.cleanup_dead_sessions (fun _ => false)
        [("s1", sampleInfo)] [("s1", sampleDir)]).2.map (fun e => e.1)) ∧
    (∀ (env : Helper.DiscoverEnv) (now : Nat) (st : Helper.AppState),
      Helper.read_sessions (Helper.poll_fs_after_discovery env now st) =
        [("s1", sampleInfo)] →
      Helper.poll_fs_after_discovery env now st = [("s1", sampleDir)] →
      ¬ "s1" ∈ (Helper.poll env (fun _ => false) now st).mem_sessions.map
          (fun e => e.1) ∧
      ¬ "s1" ∈ (Helper.poll env (fun _ => false) now st).fs.map
          (fun e => e.1)) :=
  c8_dead_session_sweep (fun _ => false) [("s1", sampleInfo)]
    [("s1", sampleDir)] "s1" sampleInfo (by decide) (by decide) (by decide)

/-- C9 counterexample: the stale-session sweep does NOT run periodically.
A session whose `last_updated` lies a full `now` (far beyond the 24-hour
threshold) in the past but whose owner process is alive survives a
complete `_poll` cycle untouched, even though `_cleanup_stale_sessions`
would delete it — `_poll` simply never calls that sweep (only
`ClaudeHelperApp.__init__` does). -/
theorem c9_counterexample :
    (Helper.poll noProcs (fun p => p == 42) 1000000 staleAliveState).fs.map
      (fun e => e.1) = ["s1"] ∧
    ((1000000 : Int) - (staleAliveInfo.last_updated.getD 0 : Int)
      > (Helper.STALE_THRESHOLD : Int)) ∧
    Helper.cleanup_stale_sessions 1000000 staleAliveState.fs = [] := by
  exact ⟨by decide, by decide, by decide⟩

/-- C9 (amended): the stale-session sweep runs once, at responder startup
(`ClaudeHelperApp.__init__`), not periodically: at startup every session
whose `last_updated` is older than the 24-hour threshold is deleted
regardless of owner-process liveness, and every session directory with a
missing or unreadable record is deleted too; the periodic poll performs
only the dead-session and stale-pending sweeps. -/
theorem c9_amended_stale_sweep_at_startup
    (now : Nat) (fs : Helper.SessionsFS) (sid : String)
    (dir : Helper.SessionDir) (_hmem : (sid, dir) ∈ fs)
    (hstale : dir.info = InfoFile.missing ∨ dir.info = InfoFile.malformed ∨
      (∃ i, dir.info = InfoFile.valid i ∧
        (now : Int) - (i.last_updated.getD 0 : Int)
          > (Helper.STALE_THRESHOLD : Int))) :
    ¬ (sid, dir) ∈ (Helper.init_state now fs).fs ∧
    (Helper.init_state now fs).fs = Helper.cleanup_stale_sessions now fs := by
  refine ⟨fun hin => ?_, rfl⟩
  have hkeep := (List.mem_filter.mp hin).2
  rcases hstale with h | h | ⟨i, hi, hgt⟩
  · rw [h] at hkeep
    exact Bool.noConfusion hkeep
  · rw [h] at hkeep
    exact Bool.noConfusion hkeep
  · rw [hi] at hkeep
    simp only [Bool.not_eq_eq_eq_not, Bool.not_true, decide_eq_false_iff_not]
      at hkeep
    exact hkeep hgt

/-- Witness for the amended C9: the stale record of `staleAliveState` is
deleted by the startup sweep. -/
theorem c9_witness :
    ¬ ("s1", ({ info := InfoFile.valid staleAliveInfo, pending := [] } :
        Helper.SessionDir)) ∈ (Helper.init_state 1000000 staleAliveState.fs).fs ∧
    (Helper.init_state 1000000 staleAliveState.fs).fs =
      Helper.cleanup_stale_sessions 1000000 staleAliveState.fs :=
  c9_amended_stale_sweep_at_startup 1000000 staleAliveState.fs "s1"
    { info := InfoFile.valid staleAliveInfo, pending := [] } (by decide)
    (Or.inr (Or.inr ⟨staleAliveInfo, rfl, by decide⟩))

/-! ### C10: discovery idempotence -/

/-- `samePidFrame` is reflexive. -/
lemma samePidFrame_refl (x : InfoFile) : samePidFrame x x := by
  cases x <;> simp [samePidFrame]

/-- `samePidFrame` is transitive. -/
lemma samePidFrame_trans {x y z : InfoFile}
    (h1 : samePidFrame x y) (h2 : samePidFrame y z) : samePidFrame x z := by
  cases x <;> cases y <;> cases z <;> simp_all [samePidFrame]

/-- `samePidFrame` out of a non-missing record stays non-missing. -/
lemma samePidFrame_ne_missing {x y : InfoFile}
    (h1 : samePidFrame x y) (h2 : x ≠ InfoFile.missing) :
    y ≠ InfoFile.missing := by
  cases x <;> cases y <;> simp_all [samePidFrame]

/-- `fsUpdate` replaces the looked-up directory. -/
lemma fsLookup_update_self (fs : Helper.SessionsFS) (sid : String)
    (d d2 : Helper.SessionDir) (h : Helper.fsLookup fs sid = some d) :
    Helper.fsLookup (Helper.fsUpdate fs sid d2) sid = some d2 := by
  induction fs with
  | nil => simp [Helper.fsLookup] at h
  | cons e tl ih =>
      simp only [Helper.fsUpdate]
      by_cases he : (e.1 == sid) = true
      · rw [if_pos he]
        simp [Helper.fsLookup]
      · rw [if_neg he]
        simp only [Helper.fsLookup] at h ⊢
        rw [if_neg he] at h ⊢
        exact ih h

/-- `fsUpdate` of another session id leaves a lookup unchanged. -/
lemma fsLookup_update_other (fs : Helper.SessionsFS) (s sid : String)
    (d2 : Helper.SessionDir) (hne : ¬ s = sid) :
    Helper.fsLookup (Helper.fsUpdate fs s d2) sid = Helper.fsLookup fs sid := by
  induction fs with
  | nil => rfl
  | cons e tl ih =>
      simp only [Helper.fsUpdate]
      by_cases hes : (e.1 == s) = true
      · rw [if_pos hes]
        simp only [Helper.fsLookup]
        have h1 : ¬ (s == sid) = true := by simpa using hne
        have h2 : ¬ (e.1 == sid) = true := by
          have he : e.1 = s := by simpa using hes
          rw [he]
          exact h1
        rw [if_neg h1, if_neg h2]
        exact ih
      · rw [if_neg hes]
        simp only [Helper.fsLookup]
        by_cases hek : (e.1 == sid) = true
        · rw [if_pos hek, if_pos hek]
        · rw [if_neg hek, if_neg hek]
          exact ih

/-- `fsUpdate` never changes which session directories exist. -/
lemma fsUpdate_keys (fs : Helper.SessionsFS) (s : String)
    (d : Helper.SessionDir) :
    (Helper.fsUpdate fs s d).map (fun e => e.1) = fs.map (fun e => e.1) := by
  induction fs with
  | nil => rfl
  | cons e tl ih =>
      simp only [Helper.fsUpdate]
      by_cases he : (e.1 == s) = true
      · rw [if_pos he]
        simp only [List.map_cons, ih]
        have h1 : e.1 = s := by simpa using he
        rw [h1]
      · rw [if_neg he]
        simp only [List.map_cons, ih]

/-- A lookup that succeeds in `fs` succeeds unchanged in `fs ++ l`. -/
lemma fsLookup_append (fs l : Helper.SessionsFS) (sid : String)
    (d : Helper.SessionDir) (h : Helper.fsLookup fs sid = some d) :
    Helper.fsLookup (fs ++ l) sid = some d := by
  induction fs with
  | nil => simp [Helper.fsLookup] at h
  | cons e tl ih =>
      simp only [Helper.fsLookup] at h
      simp only [List.cons_append, Helper.fsLookup]
      by_cases he : (e.1 == sid) = true
      · rw [if_pos he] at h ⊢
        exact h
      · rw [if_neg he] at h ⊢
        exact ih h

/-- The per-candidate discovery step: when a record file for `sid`
already exists (readable or not), the step never creates a second record
for `sid` and changes at most its `parent_pid`. -/
lemma discover_candidate_frame
    (projects : String → Option (List (String × Nat)))
    (mem : List (String × SessionInfo)) (now : Nat) (fs : Helper.SessionsFS)
    (pid : Nat) (cwd : String) (sid : String) (d : Helper.SessionDir)
    (hl : Helper.fsLookup fs sid = some d)
    (hmiss : d.info ≠ InfoFile.missing) :
    ∃ d', Helper.fsLookup
        (Helper.discover_candidate projects mem now fs pid cwd) sid
        = some d' ∧
      d'.pending = d.pending ∧ samePidFrame d.info d'.info ∧
      d'.info ≠ InfoFile.missing ∧
      ((Helper.discover_candidate projects mem now fs pid cwd).map
          (fun e => e.1)).count sid = (fs.map (fun e => e.1)).count sid := by
  unfold Helper.discover_candidate
  split
  · exact ⟨d, hl, rfl, samePidFrame_refl _, hmiss, rfl⟩
  split
  · exact ⟨d, hl, rfl, samePidFrame_refl _, hmiss, rfl⟩
  split
  · exact ⟨d, hl, rfl, samePidFrame_refl _, hmiss, rfl⟩
  rename_i listing sid' hbest hreg
  split
  · rename_i d2 hfl
    split
    · rename_i i2 hinfo
      by_cases hss : sid' = sid
      · subst hss
        have hdd : d2 = d := Option.some.inj (hfl.symm.trans hl)
        subst hdd
        refine ⟨_, fsLookup_update_self fs sid' d2 _ hl, rfl, ?_, by simp,
          by rw [fsUpdate_keys]⟩
        rw [hinfo]
        simp [samePidFrame]
      · refine ⟨d, ?_, rfl, samePidFrame_refl _, hmiss, by rw [fsUpdate_keys]⟩
        rw [fsLookup_update_other fs sid' sid _ hss]
        exact hl
    · exact ⟨d, hl, rfl, samePidFrame_refl _, hmiss, rfl⟩
    · rename_i hinfo
      by_cases hss : sid' = sid
      · subst hss
        have hdd : d2 = d := Option.some.inj (hfl.symm.trans hl)
        subst hdd
        exact absurd hinfo hmiss
      · refine ⟨d, ?_, rfl, samePidFrame_refl _, hmiss, by rw [fsUpdate_keys]⟩
        rw [fsLookup_update_other fs sid' sid _ hss]
        exact hl
  · rename_i hfl
    have hss : ¬ sid' = sid := by
      intro hss
      rw [hss, hl] at hfl
      exact Option.noConfusion hfl
    refine ⟨d, fsLookup_append fs _ sid d hl, rfl,
      samePidFrame_refl _, hmiss, ?_⟩
    rw [List.map_append, List.count_append]
    simp [List.count_singleton, hss]

/-- Folding the per-candidate step over any candidate list preserves the
frame property of every session that already has a record file. -/
lemma discover_fold_frame
    (projects : String → Option (List (String × Nat)))
    (mem : List (String × SessionInfo)) (now : Nat) (sid : String) :
    ∀ (cands : List (Nat × String)) (fs : Helper.SessionsFS)
      (d : Helper.SessionDir),
      Helper.fsLookup fs sid = some d → d.info ≠ InfoFile.missing →
      ∃ d', Helper.fsLookup
          (cands.foldl (fun fs pc =>
            Helper.discover_candidate projects mem now fs pc.1 pc.2) fs) sid
          = some d' ∧
        d'.pending = d.pending ∧ samePidFrame d.info d'.info ∧
        d'.info ≠ InfoFile.missing ∧
        ((cands.foldl (fun fs pc =>
            Helper.discover_candidate projects mem now fs pc.1 pc.2) fs).map
          (fun e => e.1)).count sid = (fs.map (fun e => e.1)).count sid := by
  intro cands
  induction cands with
  | nil => exact fun fs d h hm => ⟨d, h, rfl, samePidFrame_refl _, hm, rfl⟩
  | cons c tl ih =>
      intro fs d h hm
      obtain ⟨d1, h1, hp1, hf1, hm1, hc1⟩ :=
        discover_candidate_frame projects mem now fs c.1 c.2 sid d h hm
      obtain ⟨d2, h2, hp2, hf2, hm2, hc2⟩ :=
        ih (Helper.discover_candidate projects mem now fs c.1 c.2) d1 h1 hm1
      exact ⟨d2, h2, hp2.trans hp1, samePidFrame_trans hf1 hf2, hm2,
        hc2.trans hc1⟩

/-- C10: session discovery is idempotent.  If a record file for the
discovered session id already exists on disk, a discovery pass never
creates a second record for that session (the record count for its id is
unchanged), and the existing record keeps its `pending/` directory and
every field — status, waiting_for, and the rest — except possibly
`parent_pid`, the only field the backfill writes. -/
theorem c10_discovery_idempotent
    (env : Helper.DiscoverEnv) (mem : List (String × SessionInfo))
    (now : Nat) (fs : Helper.SessionsFS) (sid : String)
    (dir : Helper.SessionDir)
    (hl : Helper.fsLookup fs sid = some dir)
    (hrec : dir.info ≠ InfoFile.missing) :
    ∃ dir', Helper.fsLookup
        (Helper.discover_unregistered_sessions env mem now fs) sid
        = some dir' ∧
      dir'.pending = dir.pending ∧
      samePidFrame dir.info dir'.info ∧
      ((Helper.discover_unregistered_sessions env mem now fs).map
          (fun e => e.1)).count sid = (fs.map (fun e => e.1)).count sid := by
  obtain ⟨d', h', hp, hf, -, hc⟩ :=
    discover_fold_frame env.projects mem now sid
      (((env.candidates.filter (fun c =>
          !((mem.map (fun e => e.2.parent_pid)).contains (some c.1)))).filterMap
        (fun c => c.2.map (fun cw => (c.1, cw))))) fs dir hl hrec
  exact ⟨d', h', hp, hf, hc⟩

/-- Witness for C10: one discovery pass over `oneCandidateEnv` with the
record for `abc` already on disk. -/
theorem c10_witness :
    ∃ dir', Helper.fsLookup
        (Helper.discover_unregistered_sessions oneCandidateEnv [] 77
          existingAbcFS) "abc" = some dir' ∧
      dir'.pending = abcDir.pending ∧
      samePidFrame abcDir.info dir'.info ∧
      ((Helper.discover_unregistered_sessions oneCandidateEnv [] 77
          existingAbcFS).map (fun e => e.1)).count "abc"
        = (existingAbcFS.map (fun e => e.1)).count "abc" :=
  c10_discovery_idempotent oneCandidateEnv [] 77 existingAbcFS "abc" abcDir
    (by decide) (by decide)

/-- Witness for C5: answers for indices 0 and 1 both survive. -/
theorem c5_witness :
    Helper.dictGet (Helper.write_elicitation_answer
        (RespFile.valid (Helper.write_elicitation_answer RespFile.absent
          "r1" 0 "Yes" 1)) "r1" 1 "No" 2).answers (toString 0) = some "Yes" ∧
    Helper.dictGet (Helper.write_elicitation_answer
        (RespFile.valid (Helper.write_elicitation_answer RespFile.absent
          "r1" 0 "Yes" 1)) "r1" 1 "No" 2).answers (toString 1) = some "No" :=
  c5_elicitation_answers_merge RespFile.absent "r1" 0 1 "Yes" "No" 1 2
    (by omega)

end ClaudeDot
